import Mathlib

/-!
# Shallow embedding of `src/system_controller.py`

The source is a single Python class `SystemController`.  The parts the
specification talks about are:

* `is_command_fresh` (lines 71-76): timestamp freshness check against
  `COMMAND_COOLDOWN = 2` seconds, with Python truthiness on the timestamp
  (`if not timestamp: return False`, so both a missing timestamp and a
  timestamp equal to `0` are rejected).
* `process_command` (lines 148-187): admission (freshness, then a 0.5 s
  minimum-interval check against `last_command_time`), the state update
  `self.last_command_time = now`, and dispatch through the `handlers`
  dictionary with a special case for the `custom` action.
* `run_custom` (lines 137-145): `subprocess.run(command, shell=True,
  capture_output=True, text=True, timeout=10)` inside `try/except`.
* `__init__` (line 38): `last_command_time = datetime.now() - timedelta(seconds=10)`.

Wall-clock instants and durations are modelled as rationals (seconds since
the Unix epoch); record timestamps are integers in epoch milliseconds, as the
producer sends them.  Fields that Python reads with `dict.get` are `Option`s.
Effects are reified: dispatch returns a `DispatchResult` describing which
handler was invoked (or that the record was dropped), and the shell call made
by `run_custom` is an oracle argument that may fail with any exception,
modelled as `Except`.
-/

namespace SystemController

/-- `COMMAND_COOLDOWN = 2` (line 33): the freshness window in seconds. -/
def COMMAND_COOLDOWN : ℚ := 2

/-- The minimum-interval bound `0.5` inlined at line 162 of the source
(the spec calls it `MIN_INTERVAL`). -/
def MIN_INTERVAL : ℚ := 1 / 2

/-- A Firebase command record: the fields `process_command` reads with
`data.get(...)` / `'command' in data`.  `timestamp` is epoch milliseconds. -/
structure CommandRecord where
  action : Option String
  timestamp : Option ℤ
  command : Option String
  deriving DecidableEq, Repr

/-- Python truthiness of the `timestamp` value: `not timestamp` is `True`
exactly when the field is missing (`None`) or equal to `0`. -/
def py_truthy : Option ℤ → Bool
  | none => false
  | some n => n != 0

/-- Lines 71-76:
```
def is_command_fresh(self, timestamp):
    if not timestamp:
        return False
    cmd_time = datetime.fromtimestamp(timestamp / 1000)
    return (datetime.now() - cmd_time).total_seconds() < COMMAND_COOLDOWN
```
`datetime.now()` is passed in as `now` (seconds since the epoch).  This
function models `datetime.fromtimestamp` on its representable range only
(years 1..9999); `is_command_fresh_checked` below also carries the
`ValueError` the conversion raises outside that range. -/
def is_command_fresh (now : ℚ) (timestamp : Option ℤ) : Bool :=
  if py_truthy timestamp = false then
    false
  else
    let cmd_time : ℚ := ((timestamp.getD 0 : ℤ) : ℚ) / 1000
    decide (now - cmd_time < COMMAND_COOLDOWN)

/-- The first integral second past the `datetime` range (start of year 10000,
UTC, epoch seconds): CPython's `datetime.fromtimestamp` raises `ValueError`
from there on, e.g. `ValueError: year 31690708 is out of range` at
`10 ^ 15` seconds. -/
def DATETIME_MAX_SECONDS : ℚ := 253402300800

/-- The earliest second the `datetime` range covers (0001-01-01 UTC, epoch
seconds): `datetime.fromtimestamp` raises `ValueError` below it. -/
def DATETIME_MIN_SECONDS : ℚ := -62135596800

/-- CPython's `datetime.fromtimestamp` (UTC): the identity on instants whose
calendar date falls in years 1..9999, and a raised `ValueError` outside that
range (the message text is abstracted; CPython interpolates the year). -/
def fromtimestamp (seconds : ℚ) : Except String ℚ :=
  if seconds < DATETIME_MIN_SECONDS ∨ DATETIME_MAX_SECONDS ≤ seconds then
    Except.error "ValueError: year is out of range"
  else
    Except.ok seconds

/-- Lines 71-76 once more, now keeping the error path of
`datetime.fromtimestamp(timestamp / 1000)` at line 75: outside the
representable range the `ValueError` propagates out of `is_command_fresh`
(neither it nor `process_command` has an enclosing `try/except`), so the
record neither passes nor fails the check — the callback raises. -/
def is_command_fresh_checked (now : ℚ) (timestamp : Option ℤ) :
    Except String Bool :=
  if py_truthy timestamp = false then
    Except.ok false
  else
    match fromtimestamp (((timestamp.getD 0 : ℤ) : ℚ) / 1000) with
    | Except.error e => Except.error e
    | Except.ok cmd_time =>
        Except.ok (decide (now - cmd_time < COMMAND_COOLDOWN))

/-- The mutable state of the controller that admission reads and writes:
`self.last_command_time` (seconds since the epoch). -/
structure ControllerState where
  last_command_time : ℚ
  deriving DecidableEq, Repr

/-- Line 38: `self.last_command_time = datetime.now() - timedelta(seconds=10)`,
with `startup` the value of `datetime.now()` during `__init__`. -/
def init_state (startup : ℚ) : ControllerState :=
  { last_command_time := startup - 10 }

/-- What one call to `process_command` did, reifying its side effects:
either the record was dropped at one of the early returns, or a registry
handler was invoked (named by the bound method), or `run_custom` ran a
shell command, or the "Unknown action" message was printed. -/
inductive DispatchResult where
  | noData
  | staleDropped
  | intervalDropped
  | invoked (handler : String)
  | ranCustom (cmd : String)
  | unknown (action : Option String)
  deriving DecidableEq, Repr

/-- The `handlers` dictionary built at lines 167-180, as an association list
from action name to the bound method's name. -/
def handlers : List (String × String) :=
  [("play", "play_pause"),
   ("pause", "play_pause"),
   ("next", "next_track"),
   ("previous", "previous_track"),
   ("volume_up", "volume_up"),
   ("volume_down", "volume_down"),
   ("mute", "mute"),
   ("lock", "lock_screen"),
   ("screenshot", "screenshot"),
   ("browser", "open_browser"),
   ("spotify", "open_spotify"),
   ("terminal", "open_terminal")]

/-- `action in handlers` followed by `handlers[action]`: the dictionary
lookup, with a missing `action` field (`None`) never a key. -/
def lookup_handler : Option String → Option String
  | none => none
  | some a => (handlers.find? (fun p => p.1 == a)).map (fun p => p.2)

/-- Lines 148-187, `process_command(self, data)`, with `datetime.now()` at
line 161 passed in as `now`.  Returns the state after the call together with
the reified effect.  A falsy `data` argument (`None` or an empty dict) is
`none` here. -/
def process_command (st : ControllerState) (now : ℚ)
    (data : Option CommandRecord) : ControllerState × DispatchResult :=
  match data with
  | none => (st, DispatchResult.noData)
  | some r =>
    let action := r.action
    let timestamp := r.timestamp
    if is_command_fresh now timestamp = false then
      (st, DispatchResult.staleDropped)
    else if now - st.last_command_time < MIN_INTERVAL then
      (st, DispatchResult.intervalDropped)
    else
      let st' : ControllerState := { last_command_time := now }
      match lookup_handler action with
      | some h => (st', DispatchResult.invoked h)
      | none =>
        match action, r.command with
        | some "custom", some cmd => (st', DispatchResult.ranCustom cmd)
        | _, _ => (st', DispatchResult.unknown action)

/-- Whether the record passed the admission filter (every outcome after the
two early returns at lines 157-163, including the "Unknown action" branch:
the source updates `last_command_time` before routing). -/
def admitted : DispatchResult → Bool
  | DispatchResult.invoked _ => true
  | DispatchResult.ranCustom _ => true
  | DispatchResult.unknown _ => true
  | _ => false

/-- The argument structure of the `subprocess.run` call at line 140. -/
structure ShellRequest where
  command : String
  shell : Bool
  capture_output : Bool
  timeout : ℚ
  deriving DecidableEq, Repr

/-- The `CompletedProcess` value `subprocess.run` returns when it does not
raise: exit status and captured standard output. -/
structure CompletedProcess where
  returncode : ℤ
  stdout : String
  deriving DecidableEq, Repr

/-- The exact `subprocess.run` call `run_custom` makes at line 140:
`subprocess.run(command, shell=True, capture_output=True, text=True, timeout=10)`. -/
def custom_request (command : String) : ShellRequest :=
  { command := command
    shell := true
    capture_output := true
    timeout := 10 }

/-- Lines 137-145, `run_custom(self, command)`.  The behaviour of
`subprocess.run` is the oracle `runShell`: it may return a completed process
or raise any exception (non-zero exit is a normal return; a timeout or a
spawn failure is an `Except.error`).  The result is the list of printed
diagnostic lines; an `Except.error` result of `run_custom` itself would mean
an exception escaped the `try/except`. -/
def run_custom (runShell : ShellRequest → Except String CompletedProcess)
    (command : String) : Except String (List String) :=
  match runShell (custom_request command) with
  | Except.ok result =>
      Except.ok (["⚡ Custom: " ++ command] ++
        (if result.stdout ≠ "" then ["   Output: " ++ result.stdout.trim] else []))
  | Except.error e => Except.ok (["❌ Command failed: " ++ e])

/-- The action names section 6 of the spec lists as recognized: the twelve
`handlers` keys plus `custom`. -/
def recognized_actions : List String :=
  ["play", "pause", "next", "previous", "volume_up", "volume_down", "mute",
   "lock", "screenshot", "browser", "spotify", "terminal", "custom"]

/-! ## Helper lemmas -/

/-- A record that passes both admission checks reaches the routing block at
lines 166-187 with the state already updated to `now`. -/
theorem process_some_of_pass (st : ControllerState) (now : ℚ) (r : CommandRecord)
    (hf : is_command_fresh now r.timestamp = true)
    (hg : ¬(now - st.last_command_time < MIN_INTERVAL)) :
    process_command st now (some r) =
      (⟨now⟩,
        match lookup_handler r.action with
        | some h => DispatchResult.invoked h
        | none =>
          match r.action, r.command with
          | some "custom", some cmd => DispatchResult.ranCustom cmd
          | _, _ => DispatchResult.unknown r.action) := by
  simp [process_command, hf, hg]
  split
  · rfl
  · split <;> rfl

/-- Every outcome of the routing block counts as admitted. -/
theorem admitted_route (a c : Option String) :
    admitted
      (match lookup_handler a with
       | some h => DispatchResult.invoked h
       | none =>
         match a, c with
         | some "custom", some cmd => DispatchResult.ranCustom cmd
         | _, _ => DispatchResult.unknown a) = true := by
  split
  · rfl
  · split <;> rfl

/-- Characterization of admission: a record is admitted exactly when it is
fresh and the minimum interval since `last_command_time` has elapsed. -/
theorem admitted_iff (st : ControllerState) (now : ℚ) (r : CommandRecord) :
    admitted (process_command st now (some r)).2 = true ↔
      (is_command_fresh now r.timestamp = true ∧
        MIN_INTERVAL ≤ now - st.last_command_time) := by
  constructor
  · intro h
    by_cases hf : is_command_fresh now r.timestamp = true
    · by_cases hg : now - st.last_command_time < MIN_INTERVAL
      · simp [process_command, hf, hg, admitted] at h
      · exact ⟨hf, not_lt.mp hg⟩
    · have hf' : is_command_fresh now r.timestamp = false := by
        simpa using hf
      simp [process_command, hf', admitted] at h
  · rintro ⟨hf, hg⟩
    rw [process_some_of_pass st now r hf (not_lt.mpr hg)]
    exact admitted_route r.action r.command

/-- The state after `process_command`: updated to `now` exactly on admission. -/
theorem process_command_fst (st : ControllerState) (now : ℚ)
    (data : Option CommandRecord) :
    (process_command st now data).1 =
      if admitted (process_command st now data).2 = true then ⟨now⟩ else st := by
  cases data with
  | none => simp [process_command, admitted]
  | some r =>
    by_cases hf : is_command_fresh now r.timestamp = true
    · by_cases hg : now - st.last_command_time < MIN_INTERVAL
      · simp [process_command, hf, hg, admitted]
      · rw [process_some_of_pass st now r hf hg]
        have h := admitted_route r.action r.command
        simp [h]
    · have hf' : is_command_fresh now r.timestamp = false := by
        simpa using hf
      simp [process_command, hf', admitted]

/-- An action name outside the registry and outside `custom` is not a
`handlers` key, so the dictionary lookup misses. -/
theorem lookup_handler_eq_none (a : String) (ha : a ∉ recognized_actions) :
    lookup_handler (some a) = none := by
  simp only [recognized_actions, List.mem_cons, List.not_mem_nil, or_false,
    not_or] at ha
  obtain ⟨h1, h2, h3, h4, h5, h6, h7, h8, h9, h10, h11, h12, h13⟩ := ha
  have hfind : handlers.find? (fun p => p.1 == a) = none := by
    rw [List.find?_eq_none]
    intro p hp
    simp only [handlers, List.mem_cons, List.not_mem_nil, or_false] at hp
    rcases hp with rfl | rfl | rfl | rfl | rfl | rfl | rfl | rfl | rfl | rfl | rfl | rfl <;>
      simp only [beq_iff_eq] <;>
      (intro hx; subst hx; simp_all)
  simp [lookup_handler, hfind]

/-! ## Claims -/

/-- C1 (counterexample to the claim as stated): a record with a *present*
timestamp equal to `0` and current wall-clock time `now = 1` (one second
after the epoch) has age `1 s < 2 s = FRESHNESS_WINDOW`, yet the freshness
check rejects it, because line 73 (`if not timestamp`) treats the falsy
integer `0` like a missing timestamp. -/
theorem c1_counterexample :
    is_command_fresh 1 (some 0) = false ∧
      (1 : ℚ) - ((0 : ℤ) : ℚ) / 1000 < COMMAND_COOLDOWN :=
  ⟨rfl, by norm_num [COMMAND_COOLDOWN]⟩

/-- C1 (amended): for every record with a present *nonzero* timestamp and
every current time `now`, the freshness check passes exactly when the age
`now - timestamp/1000` is strictly below `COMMAND_COOLDOWN = 2` seconds, and
rejects exactly when the age is at least 2 seconds. -/
theorem c1_freshness_window (now : ℚ) (ts : ℤ) (hts : ts ≠ 0) :
    is_command_fresh now (some ts) = true ↔
      now - (ts : ℚ) / 1000 < COMMAND_COOLDOWN := by
  simp [is_command_fresh, py_truthy, hts]

/-- C1 witness: at `now = 10` s, a timestamp of `9500` ms has age `0.5 s < 2 s`
and passes the freshness check. -/
theorem c1_freshness_window_witness :
    is_command_fresh 10 (some 9500) = true ∧
      (10 : ℚ) - ((9500 : ℤ) : ℚ) / 1000 < COMMAND_COOLDOWN := by
  have hage : (10 : ℚ) - ((9500 : ℤ) : ℚ) / 1000 < COMMAND_COOLDOWN := by
    norm_num [COMMAND_COOLDOWN]
  exact ⟨(c1_freshness_window 10 9500 (by norm_num)).mpr hage, hage⟩

/-- C2: for a fresh record, the interval check at lines 161-163 rejects
exactly when `now - last_command_time < MIN_INTERVAL = 0.5 s` and admits
exactly when the gap is at least `0.5 s`; the admission decision depends only
on the record's timestamp, not on its action or payload; and after an
admitted record, any record processed less than `0.5 s` later is rejected,
so at most one command is admitted per interval window. -/
theorem c2_interval_dedup (st : ControllerState) (now : ℚ) (r : CommandRecord)
    (hfresh : is_command_fresh now r.timestamp = true) :
    ((process_command st now (some r)).2 = DispatchResult.intervalDropped ↔
        now - st.last_command_time < MIN_INTERVAL) ∧
    (admitted (process_command st now (some r)).2 = true ↔
        MIN_INTERVAL ≤ now - st.last_command_time) ∧
    (∀ r2 : CommandRecord, r2.timestamp = r.timestamp →
        admitted (process_command st now (some r2)).2 =
          admitted (process_command st now (some r)).2) ∧
    (∀ (now2 : ℚ) (r2 : CommandRecord),
        admitted (process_command st now (some r)).2 = true →
        now2 - now < MIN_INTERVAL →
        admitted (process_command (process_command st now (some r)).1 now2
          (some r2)).2 = false) := by
  refine ⟨?_, ?_, ?_, ?_⟩
  · constructor
    · intro h
      by_contra hg
      have hadm : admitted (process_command st now (some r)).2 = true := by
        rw [process_some_of_pass st now r hfresh hg]
        exact admitted_route r.action r.command
      rw [h] at hadm
      exact absurd hadm (by simp [admitted])
    · intro hg
      simp [process_command, hfresh, hg]
  · rw [admitted_iff]
    simp [hfresh]
  · intro r2 ht
    have e1 := admitted_iff st now r2
    have e2 := admitted_iff st now r
    rw [ht] at e1
    cases hx : admitted (process_command st now (some r2)).2 <;>
      cases hy : admitted (process_command st now (some r)).2 <;> simp_all
    linarith
  · intro now2 r2 hadm hlt
    have hst : (process_command st now (some r)).1 = ⟨now⟩ := by
      rw [process_command_fst, hadm]
      simp
    rw [hst, Bool.eq_false_iff]
    intro hcontra
    obtain ⟨_, hge⟩ := (admitted_iff ⟨now⟩ now2 r2).mp hcontra
    simp only [] at hge
    exact absurd hlt (not_lt.mpr hge)

/-- C2 witness: with `last_command_time = 0`, a fresh record at `now = 1` is
admitted (gap `1 s ≥ 0.5 s`), and a second record `0.1 s` later is rejected. -/
theorem c2_interval_dedup_witness :
    admitted (process_command (process_command ⟨0⟩ 1
      (some ⟨some "play", some 900, none⟩)).1 (11 / 10)
      (some ⟨some "next", some 1000, none⟩)).2 = false := by
  have hfresh : is_command_fresh 1 (some 900) = true := by
    simp only [is_command_fresh, py_truthy]
    norm_num [COMMAND_COOLDOWN]
  have h := (c2_interval_dedup ⟨0⟩ 1 ⟨some "play", some 900, none⟩ hfresh).2.2.2
  refine h (11 / 10) ⟨some "next", some 1000, none⟩ ?_ ?_
  · rw [admitted_iff]
    refine ⟨hfresh, ?_⟩
    norm_num [MIN_INTERVAL]
  · norm_num [MIN_INTERVAL]

/-- C3: an admitted record is routed by lines 182-187: when its action is a
`handlers` key, exactly that bound operation is invoked; otherwise, when the
action is `custom` and a command payload is present, the payload is run as a
shell command; in every remaining case the call only reports an unknown
action — the result is the `unknown` report, which is neither a registry
invocation nor a shell run, and `process_command` is a total function, so no
exception is raised. -/
theorem c3_dispatch_routing (st : ControllerState) (now : ℚ) (r : CommandRecord)
    (hadm : admitted (process_command st now (some r)).2 = true) :
    (∀ a h, r.action = some a → lookup_handler (some a) = some h →
        (process_command st now (some r)).2 = DispatchResult.invoked h) ∧
    (∀ cmd, r.action = some "custom" → r.command = some cmd →
        (process_command st now (some r)).2 = DispatchResult.ranCustom cmd) ∧
    (lookup_handler r.action = none →
        (r.action = some "custom" → r.command = none) →
        (process_command st now (some r)).2 = DispatchResult.unknown r.action) := by
  obtain ⟨hf, hg⟩ := (admitted_iff st now r).mp hadm
  have hp := process_some_of_pass st now r hf (not_lt.mpr hg)
  refine ⟨?_, ?_, ?_⟩
  · intro a h ha hl
    rw [hp]
    simp [ha, hl]
  · intro cmd ha hc
    rw [hp, ha, hc]
    rfl
  · intro hl hc
    rw [hp]
    simp only [hl]
    split
    · rename_i heqa heqc
      rw [heqa] at hc
      rw [hc rfl] at heqc
      exact absurd heqc (by simp)
    · rfl

/-- C3 witness: an admitted `play` record invokes the registry operation
`play_pause`. -/
theorem c3_dispatch_routing_witness :
    (process_command ⟨0⟩ 1 (some ⟨some "play", some 900, none⟩)).2 =
      DispatchResult.invoked "play_pause" := by
  have hadm : admitted (process_command ⟨0⟩ 1
      (some ⟨some "play", some 900, none⟩)).2 = true := by
    rw [admitted_iff]
    constructor
    · simp only [is_command_fresh, py_truthy]
      norm_num [COMMAND_COOLDOWN]
    · norm_num [MIN_INTERVAL]
  exact (c3_dispatch_routing ⟨0⟩ 1 ⟨some "play", some 900, none⟩ hadm).1
    "play" "play_pause" rfl rfl

/-- C4: `last_command_time` after `process_command` equals `now` exactly when
the record was admitted (the assignment at line 164 runs before the routing
block, so even a record routed to the unknown-action report updates it), and
equals the old value for every rejected record. -/
theorem c4_last_accepted_update (st : ControllerState) (now : ℚ)
    (data : Option CommandRecord) :
    (process_command st now data).1.last_command_time =
      if admitted (process_command st now data).2 = true then now
      else st.last_command_time := by
  rw [process_command_fst]
  split <;> rfl

/-- C5: `run_custom` passes the payload verbatim to the shell
(`shell=True`), with `capture_output=True` and a hard `timeout=10` seconds,
and returns normally — never an error — whatever `subprocess.run` does,
because the call sits in `try/except Exception`. -/
theorem c5_run_custom_total (command : String)
    (runShell : ShellRequest → Except String CompletedProcess) :
    (custom_request command).command = command ∧
    (custom_request command).shell = true ∧
    (custom_request command).timeout = 10 ∧
    (custom_request command).capture_output = true ∧
    ∃ logs, run_custom runShell command = Except.ok logs := by
  refine ⟨rfl, rfl, rfl, rfl, ?_⟩
  rcases hx : runShell (custom_request command) with e | result
  · refine ⟨["❌ Command failed: " ++ e], ?_⟩
    simp only [run_custom, hx]
  · refine ⟨["⚡ Custom: " ++ command] ++
      (if result.stdout ≠ "" then ["   Output: " ++ result.stdout.trim]
       else []), ?_⟩
    simp only [run_custom, hx]

/-- C6: a record with no timestamp field is rejected by the freshness check
and dropped by `process_command` with the state untouched, for every current
time and every admission state. -/
theorem c6_missing_timestamp (now : ℚ) (st : ControllerState)
    (action command : Option String) :
    is_command_fresh now none = false ∧
    process_command st now (some ⟨action, none, command⟩) =
      (st, DispatchResult.staleDropped) :=
  ⟨rfl, rfl⟩

/-- C7: the dispatcher recognizes exactly the names `play`, `pause`, `next`,
`previous`, `volume_up`, `volume_down`, `mute`, `lock`, `screenshot`,
`browser`, `spotify`, `terminal`, `custom`: for an admitted record, a name in
this set leads to a registry invocation (or, for `custom` with a present
command payload, a shell run), and a name outside it is reported as an
unknown action. -/
theorem c7_recognized_set (st : ControllerState) (now : ℚ) (r : CommandRecord)
    (a : String) (haction : r.action = some a)
    (hfresh : is_command_fresh now r.timestamp = true)
    (hgap : MIN_INTERVAL ≤ now - st.last_command_time) :
    ((a ∈ recognized_actions ∧ (a = "custom" → r.command.isSome = true)) →
        ((∃ h, (process_command st now (some r)).2 = DispatchResult.invoked h) ∨
         (∃ cmd, (process_command st now (some r)).2 =
            DispatchResult.ranCustom cmd))) ∧
    (a ∉ recognized_actions →
        (process_command st now (some r)).2 = DispatchResult.unknown (some a)) := by
  have hp := process_some_of_pass st now r hfresh (not_lt.mpr hgap)
  constructor
  · rintro ⟨hmem, hcustom⟩
    simp only [recognized_actions, List.mem_cons, List.not_mem_nil,
      or_false] at hmem
    rcases hmem with rfl | rfl | rfl | rfl | rfl | rfl | rfl | rfl | rfl |
      rfl | rfl | rfl | rfl
    · exact Or.inl ⟨"play_pause", by rw [hp, haction]; rfl⟩
    · exact Or.inl ⟨"play_pause", by rw [hp, haction]; rfl⟩
    · exact Or.inl ⟨"next_track", by rw [hp, haction]; rfl⟩
    · exact Or.inl ⟨"previous_track", by rw [hp, haction]; rfl⟩
    · exact Or.inl ⟨"volume_up", by rw [hp, haction]; rfl⟩
    · exact Or.inl ⟨"volume_down", by rw [hp, haction]; rfl⟩
    · exact Or.inl ⟨"mute", by rw [hp, haction]; rfl⟩
    · exact Or.inl ⟨"lock_screen", by rw [hp, haction]; rfl⟩
    · exact Or.inl ⟨"screenshot", by rw [hp, haction]; rfl⟩
    · exact Or.inl ⟨"open_browser", by rw [hp, haction]; rfl⟩
    · exact Or.inl ⟨"open_spotify", by rw [hp, haction]; rfl⟩
    · exact Or.inl ⟨"open_terminal", by rw [hp, haction]; rfl⟩
    · rcases hcmd : r.command with _ | cmd
      · have hx := hcustom rfl
        rw [hcmd] at hx
        exact absurd hx (by simp)
      · exact Or.inr ⟨cmd, by rw [hp, haction, hcmd]; rfl⟩
  · intro hnotmem
    have hl := lookup_handler_eq_none a hnotmem
    have hac : a ≠ "custom" := by
      intro h
      exact hnotmem (h ▸ (by simp [recognized_actions]))
    rw [hp, haction]
    simp only [hl]
    split
    · rename_i heqa heqc
      exact absurd (Option.some.inj heqa) hac
    · rfl

/-- C7 witness: an admitted `volume_up` record leads to an invocation, and
an admitted record with the unregistered name `stop` is reported unknown. -/
theorem c7_recognized_set_witness :
    ((∃ h, (process_command ⟨0⟩ 1
        (some ⟨some "volume_up", some 900, none⟩)).2 =
          DispatchResult.invoked h) ∨
     (∃ cmd, (process_command ⟨0⟩ 1
        (some ⟨some "volume_up", some 900, none⟩)).2 =
          DispatchResult.ranCustom cmd)) ∧
    (process_command ⟨0⟩ 1 (some ⟨some "stop", some 900, none⟩)).2 =
      DispatchResult.unknown (some "stop") := by
  have hfresh : is_command_fresh 1 (some 900) = true := by
    simp only [is_command_fresh, py_truthy]
    norm_num [COMMAND_COOLDOWN]
  have hgap : MIN_INTERVAL ≤ 1 - (⟨0⟩ : ControllerState).last_command_time := by
    norm_num [MIN_INTERVAL]
  constructor
  · exact (c7_recognized_set ⟨0⟩ 1 ⟨some "volume_up", some 900, none⟩
      "volume_up" rfl hfresh hgap).1
      ⟨by simp [recognized_actions], fun hx => absurd hx (by decide)⟩
  · exact (c7_recognized_set ⟨0⟩ 1 ⟨some "stop", some 900, none⟩
      "stop" rfl hfresh hgap).2 (by decide)

/-- C8: `__init__` sets `last_command_time` to ten seconds before startup,
`10 s` is more than the `0.5 s` minimum interval, and consequently the first
fresh record processed after startup (at any `now ≥ startup`) is admitted —
it is never rejected by the interval check. -/
theorem c8_startup_state (startup now : ℚ) (r : CommandRecord)
    (hclock : startup ≤ now)
    (hfresh : is_command_fresh now r.timestamp = true) :
    (init_state startup).last_command_time = startup - 10 ∧
    MIN_INTERVAL < 10 ∧
    admitted (process_command (init_state startup) now (some r)).2 = true := by
  refine ⟨rfl, by norm_num [MIN_INTERVAL], ?_⟩
  rw [admitted_iff]
  refine ⟨hfresh, ?_⟩
  simp only [init_state, MIN_INTERVAL]
  linarith

/-- C8 witness: with startup at time `0`, a fresh record at `now = 1` is
admitted. -/
theorem c8_startup_state_witness :
    admitted (process_command (init_state 0) 1
      (some ⟨some "lock", some 900, none⟩)).2 = true := by
  have hfresh : is_command_fresh 1 (some 900) = true := by
    simp only [is_command_fresh, py_truthy]
    norm_num [COMMAND_COOLDOWN]
  exact (c8_startup_state 0 1 ⟨some "lock", some 900, none⟩
    (by norm_num) hfresh).2.2

/-- C9: a present timestamp equal to `0` is falsy in Python, so line 73
treats it exactly like a missing timestamp: the freshness check returns
false and `process_command` behaves identically on the two records, for
every current time and every admission state. -/
theorem c9_zero_timestamp (now : ℚ) (st : ControllerState)
    (action command : Option String) :
    is_command_fresh now (some 0) = false ∧
    process_command st now (some ⟨action, some 0, command⟩) =
      process_command st now (some ⟨action, none, command⟩) :=
  ⟨rfl, rfl⟩

/-- C10 (counterexample to the claim as stated): the timestamp `10^18` ms
lies strictly in the future of the wall clock `now = 1` s, yet the record
does not pass the freshness check: `datetime.fromtimestamp(10^15)` raises
`ValueError` (year 31690708 is out of range), which propagates out of
`is_command_fresh` — so future timestamps do have an upper bound. -/
theorem c10_counterexample :
    is_command_fresh_checked 1 (some (10 ^ 18)) =
      Except.error "ValueError: year is out of range" ∧
    (1 : ℚ) < ((10 ^ 18 : ℤ) : ℚ) / 1000 := by
  constructor
  · have hft : fromtimestamp (((10 ^ 18 : ℤ) : ℚ) / 1000) =
        Except.error "ValueError: year is out of range" := by
      simp only [fromtimestamp]
      rw [if_pos]
      right
      norm_num [DATETIME_MAX_SECONDS]
    simp only [is_command_fresh_checked, py_truthy, Option.getD_some]
    rw [if_neg (by norm_num), hft]
  · norm_num

/-- C10 (amended): a record whose timestamp lies strictly in the future of
the wall clock (`now ≥ 0`, at or after the epoch) passes the freshness check
as long as the instant `timestamp/1000` stays below the `datetime` range
bound (start of year 10000); at or beyond that bound the conversion at line
75 raises `ValueError` instead, so the future reach of a passing timestamp
is bounded. -/
theorem c10_future_bounded (now : ℚ) (ts : ℤ) (hnow : 0 ≤ now)
    (hfuture : now < (ts : ℚ) / 1000) :
    ((ts : ℚ) / 1000 < DATETIME_MAX_SECONDS →
        is_command_fresh_checked now (some ts) = Except.ok true) ∧
    (DATETIME_MAX_SECONDS ≤ (ts : ℚ) / 1000 →
        is_command_fresh_checked now (some ts) =
          Except.error "ValueError: year is out of range") := by
  have hpos : (0 : ℚ) < (ts : ℚ) / 1000 := lt_of_le_of_lt hnow hfuture
  have hts : ts ≠ 0 := by
    rintro rfl
    simp only [Int.cast_zero, zero_div] at hpos
    linarith
  have hmin : ¬((ts : ℚ) / 1000 < DATETIME_MIN_SECONDS) := by
    simp only [DATETIME_MIN_SECONDS]
    intro h
    linarith
  constructor
  · intro hmax
    have hft : fromtimestamp ((ts : ℚ) / 1000) = Except.ok ((ts : ℚ) / 1000) := by
      simp only [fromtimestamp]
      rw [if_neg]
      rintro (h | h)
      · exact hmin h
      · exact absurd hmax (not_lt.mpr h)
    simp only [is_command_fresh_checked, py_truthy, Option.getD_some]
    rw [if_neg (by simp [hts]), hft]
    have hlt : now - (ts : ℚ) / 1000 < COMMAND_COOLDOWN := by
      simp only [COMMAND_COOLDOWN]
      linarith
    simp [hlt]
  · intro hmax
    have hft : fromtimestamp ((ts : ℚ) / 1000) =
        Except.error "ValueError: year is out of range" := by
      simp only [fromtimestamp]
      rw [if_pos (Or.inr hmax)]
    simp only [is_command_fresh_checked, py_truthy, Option.getD_some]
    rw [if_neg (by simp [hts]), hft]

/-- C10 witness: at `now = 1` s, a future timestamp of `10^9` ms (about
eleven and a half days after the epoch, well inside the `datetime` range)
passes the freshness check. -/
theorem c10_future_bounded_witness :
    is_command_fresh_checked 1 (some (10 ^ 9)) = Except.ok true := by
  have h := (c10_future_bounded 1 (10 ^ 9) (by norm_num) (by norm_num)).1
  exact h (by norm_num [DATETIME_MAX_SECONDS])

end SystemController
